import Mathlib

/-!
Shallow embedding of the page-load logic of the emerald-academy-v2 repository.

Two components are embedded:

* the Content Resolver
  (`src/routes/[lang=lang]/catalog/roadmaps/[name]/+page.ts`), which
  dynamically imports a statically defined overview module keyed by the
  route parameters and returns it under a `roadmap` field, collapsing any
  failure into the fixed error message "You missed it";
* the API-Backed Loader (the unnamed `+page.ts` fetching
  `/api/content/cadenceByExample`), which performs one fetch, JSON-decodes
  the body and returns it unchanged under a `content` field.

JavaScript async functions that may throw are embedded as `Except String`
values; the ambient dynamic-import mechanism and the Fetch API are passed
in as explicit function-valued environments.  Returned object literals are
embedded as association lists of (field name, value) pairs, so that the
exact set of fields of a result is a provable fact.
-/

/-- `ContentTypeEnum` from `$lib/types/content/metadata/content-types.enum`;
only the members referenced by the sources in scope are included. -/
inductive ContentTypeEnum where
  | Roadmap
  | Course
deriving DecidableEq, BEq, Repr

/-- `ExpertiseEnum` from `$lib/types/content/metadata/expertise.enum`;
only the members referenced by the sources in scope are included. -/
inductive ExpertiseEnum where
  | beginner
deriving DecidableEq, BEq, Repr

/-- `SubjectsEnum` from `$lib/types/content/metadata/subject.enum`;
only the members referenced by the sources in scope are included. -/
inductive SubjectsEnum where
  | Cadence
deriving DecidableEq, BEq, Repr

/-- One entry of a roadmap's `contents` list: a referenced course summary
(title, excerpt, contentType, duration, subjects, url). -/
structure CourseSummary where
  title : String
  excerpt : String
  contentType : ContentTypeEnum
  duration : String
  subjects : List SubjectsEnum
  url : String
deriving DecidableEq, Repr

/-- One entry of a roadmap's `chapters` list: an excerpt record. -/
structure ChapterExcerpt where
  excerpt : String
deriving DecidableEq, Repr

/-- The nested `metadata` record of a `RoadmapOverview`. -/
structure RoadmapMetadata where
  expertise : ExpertiseEnum
  duration : String
  prerequisites : List String
  subjects : List SubjectsEnum
deriving DecidableEq, Repr

/-- `RoadmapOverview` from `$lib/types/content/roadmap.interface`. -/
structure RoadmapOverview where
  title : String
  contentType : ContentTypeEnum
  slug : String
  excerpt : String
  metadata : RoadmapMetadata
  contents : List CourseSummary
  chapters : List ChapterExcerpt
deriving DecidableEq, Repr

/-- Modelled from the spec: `generateSlug` (from
`$lib/utilities/dataTransformation/generateSlug`, not present in the
repository snapshot) derives the slug deterministically from the defining
module's location; it is modelled as a deterministic function of the
module URL.  No claim depends on the concrete slug value. -/
def generateSlug (url : String) : String := url

/-- The static `overview` record of the beginner-dapp-roadmap content
module, parameterised by the defining module's `import.meta.url`. -/
def overview (importMetaUrl : String) : RoadmapOverview :=
  { title := "Beginner Dapp Roadmap"
    contentType := ContentTypeEnum.Roadmap
    slug := generateSlug importMetaUrl
    excerpt := "Lorem ipsum dolor sit amet."
    metadata :=
      { expertise := ExpertiseEnum.beginner
        duration := "3 chapters"
        prerequisites := ["javascript"]
        subjects := [SubjectsEnum.Cadence] }
    contents :=
      [ { title := "Beginner Cadence Course"
          excerpt := "Lorem ipsum"
          contentType := ContentTypeEnum.Course
          duration := "4 chapters"
          subjects := [SubjectsEnum.Cadence]
          url := "catalog/courses/beginner-cadence" },
        { title := "Basic Dapp"
          excerpt := "Lorem ipsum"
          contentType := ContentTypeEnum.Course
          duration := "4 chapters"
          subjects := [SubjectsEnum.Cadence]
          url := "catalog/courses/basic-dapp" } ]
    chapters :=
      [ { excerpt := "This is the first chapter" },
        { excerpt := "This is the second chapter" },
        { excerpt := "This is the third chapter" } ] }

/-- The exports of a content overview module: each content module exports a
single `overview` record. -/
structure ModuleExports where
  overview : RoadmapOverview
deriving DecidableEq, Repr

/-- The route parameters of the roadmap page: the `[lang=lang]` and
`[name]` URL segments, arbitrary strings taken from the route. -/
structure RouteParams where
  lang : String
  name : String
deriving DecidableEq, Repr

/-- The load event handed to the roadmap page loader; the source
destructures only `params` from it. -/
structure RoadmapLoadEvent where
  params : RouteParams
deriving DecidableEq, Repr

/-- The module specifier the resolver builds by string interpolation:
`../../../../../lib/content/roadmaps/${params.name}/${params.lang}/overview.ts`. -/
def roadmapModulePath (name lang : String) : String :=
  "../../../../../lib/content/roadmaps/" ++ name ++ "/" ++ lang ++ "/overview.ts"

/-- The Content Resolver
(`src/routes/[lang=lang]/catalog/roadmaps/[name]/+page.ts` `load`): it
dynamically imports the interpolated module path through the
ambient import mechanism `imp`; on success it returns an object literal with the
single field `roadmap` holding the module's `overview` export; any thrown
failure is caught and replaced by a thrown `Error` with message
"You missed it". -/
def roadmapLoad (imp : String → Except String ModuleExports)
    (event : RoadmapLoadEvent) : Except String (List (String × RoadmapOverview)) :=
  match imp (roadmapModulePath event.params.name event.params.lang) with
  | Except.ok roadmapFile => Except.ok [("roadmap", roadmapFile.overview)]
  | Except.error _ => Except.error "You missed it"

/-- A stand-in for the `import.meta.url` of the beginner-dapp-roadmap
overview module; its concrete value is irrelevant to every claim. -/
def beginnerDappModuleUrl : String :=
  "lib/content/roadmaps/beginner-dapp-roadmap/en/overview.ts"

/-- The repository's static content set seen through dynamic import: the
single overview module present in the sources resolves, every other
specifier fails with an underlying module-not-found error. -/
def staticImport (path : String) : Except String ModuleExports :=
  if path = roadmapModulePath "beginner-dapp-roadmap" "en" then
    Except.ok { overview := overview beginnerDappModuleUrl }
  else
    Except.error ("Cannot find module " ++ path)

/-- JSON values, for the bodies decoded by `response.json()`.  Numeric
literals are abstracted to `Int`; no claim inspects a number. -/
inductive Json where
  | null
  | bool (b : Bool)
  | num (n : Int)
  | str (s : String)
  | arr (elems : List Json)
  | obj (fields : List (String × Json))

/-- A Fetch API `Response` as observed by this code: the HTTP status and
the outcome of `response.json()` (the decode of the body, which fails
exactly when the body is not well-formed JSON, independently of the
status). -/
structure Response where
  status : Nat
  jsonBody : Except String Json

/-- `response.json()`: JSON-decode the body. -/
def Response.json (r : Response) : Except String Json := r.jsonBody

/-- `response.ok` of the Fetch API: whether the status is in the 2xx
range. -/
def Response.ok (r : Response) : Bool := 200 ≤ r.status && r.status < 300

/-- An HTTP request as issued through the framework-provided `fetch`.  A
call with a bare URL and no init object is a GET with no headers and no
body. -/
structure FetchRequest where
  method : String
  url : String
  headers : List (String × String)
  body : Option String
deriving DecidableEq, Repr

/-- The fixed, hard-coded endpoint path of the API-Backed Loader. -/
def apiEndpoint : String := "/api/content/cadenceByExample"

/-- The load event handed to the API-backed page loader: the incoming
route parameters and the framework-provided `fetch`; the source
destructures only `fetch` from it.  `fetch` returns `Except.error` when
the fetch promise rejects (network failure). -/
structure ApiLoadEvent where
  params : List (String × String)
  fetch : String → Except String Response

/-- The API-Backed Loader (`load` of the unnamed `+page.ts`): it awaits
`fetch` on the fixed endpoint, awaits `response.json()`, and returns an
object literal with the single field `content` holding the decoded body
unchanged; nothing is caught, so either await's failure propagates.  The
first component records the requests issued: exactly one bare GET of the
fixed endpoint, emitted before any branching. -/
def cadenceByExampleLoad (event : ApiLoadEvent) :
    List FetchRequest × Except String (List (String × Json)) :=
  ([ { method := "GET", url := apiEndpoint, headers := [], body := none } ],
    match event.fetch apiEndpoint with
    | Except.error e => Except.error e
    | Except.ok response =>
      match response.json with
      | Except.error e => Except.error e
      | Except.ok content => Except.ok [("content", content)])

/-- Concrete environment for the C4 counterexample: the endpoint answers
with status 404 (not 2xx) and a well-formed JSON body. -/
def c4BadStatusEvent : ApiLoadEvent :=
  { params := []
    fetch := fun _ =>
      Except.ok { status := 404, jsonBody := Except.ok (Json.obj [("error", Json.str "not found")]) } }

/-- Concrete environment whose fetch promise rejects. -/
def c4FetchFailEvent : ApiLoadEvent :=
  { params := [], fetch := fun _ => Except.error "network down" }

/-- Concrete environment whose response body is not well-formed JSON. -/
def c4BadJsonEvent : ApiLoadEvent :=
  { params := []
    fetch := fun _ => Except.ok { status := 200, jsonBody := Except.error "unexpected token" } }

/-- Claim C1: whenever the dynamic import of the interpolated module path
succeeds with an exported overview record, the Content Resolver returns an
object whose `roadmap` field is exactly that record. -/
theorem resolver_returns_imported_record
    (imp : String → Except String ModuleExports) (event : RoadmapLoadEvent)
    (m : ModuleExports)
    (h : imp (roadmapModulePath event.params.name event.params.lang) = Except.ok m) :
    roadmapLoad imp event = Except.ok [("roadmap", m.overview)] := by
  simp [roadmapLoad, h]

/-- Witness for C1 at the concrete static content set: for
('en', 'beginner-dapp-roadmap') the resolver returns the defined record,
whose title is 'Beginner Dapp Roadmap'. -/
theorem resolver_returns_imported_record_witness :
    roadmapLoad staticImport { params := { lang := "en", name := "beginner-dapp-roadmap" } }
      = Except.ok [("roadmap", overview beginnerDappModuleUrl)]
    ∧ (overview beginnerDappModuleUrl).title = "Beginner Dapp Roadmap" :=
  ⟨resolver_returns_imported_record staticImport
      { params := { lang := "en", name := "beginner-dapp-roadmap" } }
      { overview := overview beginnerDappModuleUrl } rfl, rfl⟩

/-- Claim C2: whenever the underlying dynamic resolution throws, with any
failure detail whatsoever, the Content Resolver throws an error whose
message is exactly "You missed it"; the original detail never appears in
the result. -/
theorem resolver_uniform_error
    (imp : String → Except String ModuleExports) (event : RoadmapLoadEvent)
    (e : String)
    (h : imp (roadmapModulePath event.params.name event.params.lang) = Except.error e) :
    roadmapLoad imp event = Except.error "You missed it" := by
  simp [roadmapLoad, h]

/-- Witness for C2: ('en', 'nonexistent-roadmap') has no record in the
static content set, and the resolver fails with "You missed it". -/
theorem resolver_uniform_error_witness :
    roadmapLoad staticImport { params := { lang := "en", name := "nonexistent-roadmap" } }
      = Except.error "You missed it" :=
  resolver_uniform_error staticImport
    { params := { lang := "en", name := "nonexistent-roadmap" } }
    ("Cannot find module "
      ++ roadmapModulePath "nonexistent-roadmap" "en") rfl

/-- Claim C3: for every successful JSON response body `j` obtained from
the endpoint, the API-Backed Loader returns exactly the object with the
single field `content` holding `j` unchanged. -/
theorem api_loader_passthrough (event : ApiLoadEvent) (r : Response) (j : Json)
    (hfetch : event.fetch apiEndpoint = Except.ok r)
    (hjson : r.json = Except.ok j) :
    (cadenceByExampleLoad event).2 = Except.ok [("content", j)] := by
  simp [cadenceByExampleLoad, hfetch, hjson]

/-- Witness for C3 with the response body from the spec scenario:
the JSON object with field foo holding the string bar. -/
theorem api_loader_passthrough_witness :
    (cadenceByExampleLoad
        { params := []
          fetch := fun _ =>
            Except.ok { status := 200, jsonBody := Except.ok (Json.obj [("foo", Json.str "bar")]) } }).2
      = Except.ok [("content", Json.obj [("foo", Json.str "bar")])] :=
  api_loader_passthrough
    { params := []
      fetch := fun _ =>
        Except.ok { status := 200, jsonBody := Except.ok (Json.obj [("foo", Json.str "bar")]) } }
    { status := 200, jsonBody := Except.ok (Json.obj [("foo", Json.str "bar")]) }
    (Json.obj [("foo", Json.str "bar")]) rfl rfl

/-- Counterexample to C4 as stated: a non-2xx response (status 404) whose
body is well-formed JSON does NOT make the loader fail; the loader never
inspects the status and returns the decoded body as a normal success. -/
theorem api_loader_nonOk_success_counterexample :
    Response.ok { status := 404, jsonBody := Except.ok (Json.obj [("error", Json.str "not found")]) }
        = false
    ∧ (cadenceByExampleLoad c4BadStatusEvent).2
        = Except.ok [("content", Json.obj [("error", Json.str "not found")])] :=
  ⟨rfl, rfl⟩

/-- Claim C4 (amended): every failed fetch (rejected promise) and every
malformed-JSON body propagates uncaught, with its original failure detail;
the response status itself is never inspected. -/
theorem api_loader_failure_propagation (event : ApiLoadEvent) (e : String) :
    (event.fetch apiEndpoint = Except.error e →
      (cadenceByExampleLoad event).2 = Except.error e)
    ∧ (∀ r : Response, event.fetch apiEndpoint = Except.ok r →
        r.json = Except.error e → (cadenceByExampleLoad event).2 = Except.error e) := by
  constructor
  · intro h
    simp [cadenceByExampleLoad, h]
  · intro r hr hj
    simp [cadenceByExampleLoad, hr, hj]

/-- Witness for the amended C4: a rejected fetch and a malformed body each
propagate their own original error message. -/
theorem api_loader_failure_propagation_witness :
    (cadenceByExampleLoad c4FetchFailEvent).2 = Except.error "network down"
    ∧ (cadenceByExampleLoad c4BadJsonEvent).2 = Except.error "unexpected token" :=
  ⟨(api_loader_failure_propagation c4FetchFailEvent "network down").1 rfl,
   (api_loader_failure_propagation c4BadJsonEvent "unexpected token").2
     { status := 200, jsonBody := Except.error "unexpected token" } rfl rfl⟩

/-- Claim C5: the resolver's module specifier is the verbatim string
interpolation roadmaps/<name>/<lang>/overview.ts of the two route
parameters, and the resolver consults the ambient import mechanism only at
that one interpolated path — no other table or registry affects its
result. -/
theorem resolver_path_interpolation :
    (∀ nm lg : String,
      roadmapModulePath nm lg
        = "../../../../../lib/content/roadmaps/" ++ nm ++ "/" ++ lg ++ "/overview.ts")
    ∧ (∀ (imp imp' : String → Except String ModuleExports) (event : RoadmapLoadEvent),
        imp (roadmapModulePath event.params.name event.params.lang)
          = imp' (roadmapModulePath event.params.name event.params.lang) →
        roadmapLoad imp event = roadmapLoad imp' event) := by
  constructor
  · intro nm lg
    rfl
  · intro imp imp' event h
    simp [roadmapLoad, h]

/-- Witness for C5: two import environments that agree at the interpolated
path for ('en', 'beginner-dapp-roadmap') give the same result, even though
they differ elsewhere. -/
theorem resolver_path_interpolation_witness :
    roadmapLoad staticImport { params := { lang := "en", name := "beginner-dapp-roadmap" } }
      = roadmapLoad
          (fun p => if p = roadmapModulePath "beginner-dapp-roadmap" "en" then
              staticImport p else Except.error "elsewhere")
          { params := { lang := "en", name := "beginner-dapp-roadmap" } } :=
  resolver_path_interpolation.2 staticImport
    (fun p => if p = roadmapModulePath "beginner-dapp-roadmap" "en" then
        staticImport p else Except.error "elsewhere")
    { params := { lang := "en", name := "beginner-dapp-roadmap" } } rfl

/-- Claim C6: every invocation of the API-Backed Loader issues exactly one
request: a GET of the fixed endpoint /api/content/cadenceByExample, with
no headers and no body; the endpoint is a same-origin path (its first
character is a slash) and carries no query string, and none of this depends on the
event's route parameters or fetch behaviour. -/
theorem api_loader_single_fixed_request (event : ApiLoadEvent) :
    (cadenceByExampleLoad event).1
        = [{ method := "GET", url := "/api/content/cadenceByExample",
             headers := [], body := none }]
    ∧ apiEndpoint.data.head? = some '/'
    ∧ apiEndpoint.data.contains '?' = false := by
  refine ⟨rfl, by decide, by decide⟩

/-- Claim C7: both loaders are deterministic: the resolver gives identical
results on two events with the same (language, name) over the same static
content set, and the API-backed loader gives identical results on two
events with the same fetch behaviour; each result is a function of the
explicitly passed inputs alone, there being no other state. -/
theorem loaders_deterministic :
    (∀ (imp : String → Except String ModuleExports) (e₁ e₂ : RoadmapLoadEvent),
      e₁.params.lang = e₂.params.lang → e₁.params.name = e₂.params.name →
      roadmapLoad imp e₁ = roadmapLoad imp e₂)
    ∧ (∀ ev₁ ev₂ : ApiLoadEvent, ev₁.fetch = ev₂.fetch →
        cadenceByExampleLoad ev₁ = cadenceByExampleLoad ev₂) := by
  constructor
  · intro imp e₁ e₂ hl hn
    simp [roadmapLoad, roadmapModulePath, hl, hn]
  · intro ev₁ ev₂ h
    simp [cadenceByExampleLoad, h]

/-- Witness for C7: two concrete invocations with the same key inputs but
distinct events agree. -/
theorem loaders_deterministic_witness :
    roadmapLoad staticImport { params := { lang := "en", name := "beginner-dapp-roadmap" } }
      = roadmapLoad staticImport { params := { lang := "en", name := "beginner-dapp-roadmap" } }
    ∧ cadenceByExampleLoad { params := [("a", "1")], fetch := c4BadStatusEvent.fetch }
      = cadenceByExampleLoad { params := [], fetch := c4BadStatusEvent.fetch } :=
  ⟨loaders_deterministic.1 staticImport
      { params := { lang := "en", name := "beginner-dapp-roadmap" } }
      { params := { lang := "en", name := "beginner-dapp-roadmap" } } rfl rfl,
   loaders_deterministic.2
      { params := [("a", "1")], fetch := c4BadStatusEvent.fetch }
      { params := [], fetch := c4BadStatusEvent.fetch } rfl⟩

/-- Claim C8: on success the Content Resolver's result object has exactly
one field, named `roadmap`. -/
theorem resolver_success_single_field
    (imp : String → Except String ModuleExports) (event : RoadmapLoadEvent)
    (d : List (String × RoadmapOverview))
    (h : roadmapLoad imp event = Except.ok d) :
    d.map Prod.fst = ["roadmap"] := by
  unfold roadmapLoad at h
  revert h
  cases imp (roadmapModulePath event.params.name event.params.lang) with
  | ok m =>
    intro h
    cases h
    rfl
  | error e =>
    intro h
    cases h

/-- Witness for C8 at the concrete static content set. -/
theorem resolver_success_single_field_witness :
    ([("roadmap", overview beginnerDappModuleUrl)].map Prod.fst) = ["roadmap"] :=
  resolver_success_single_field staticImport
    { params := { lang := "en", name := "beginner-dapp-roadmap" } }
    [("roadmap", overview beginnerDappModuleUrl)] rfl

/-- Claim C9: the API-Backed Loader's output is independent of the route
parameters and of every aspect of the environment other than the
endpoint's response: two events whose fetch agrees at the fixed endpoint
give identical results, whatever their params. -/
theorem api_loader_params_independent (ev₁ ev₂ : ApiLoadEvent)
    (h : ev₁.fetch apiEndpoint = ev₂.fetch apiEndpoint) :
    cadenceByExampleLoad ev₁ = cadenceByExampleLoad ev₂ := by
  simp [cadenceByExampleLoad, h]

/-- Witness for C9: the same response with different route params and a
fetch differing away from the endpoint gives the same result. -/
theorem api_loader_params_independent_witness :
    cadenceByExampleLoad { params := [("lang", "en")], fetch := c4BadJsonEvent.fetch }
      = cadenceByExampleLoad
          { params := []
            fetch := fun u => if u = apiEndpoint then c4BadJsonEvent.fetch u
              else Except.error "other route" } :=
  api_loader_params_independent
    { params := [("lang", "en")], fetch := c4BadJsonEvent.fetch }
    { params := []
      fetch := fun u => if u = apiEndpoint then c4BadJsonEvent.fetch u
        else Except.error "other route" } rfl

/-- Claim C10: the static beginner-dapp-roadmap record is internally
consistent: its contentType is the Roadmap tag, its chapters list has
exactly 3 entries matching its metadata duration of '3 chapters', and
every contents entry is a Course-tagged summary with a non-empty url. -/
theorem overview_record_consistent (url : String) :
    (overview url).contentType = ContentTypeEnum.Roadmap
    ∧ (overview url).chapters.length = 3
    ∧ (overview url).metadata.duration = "3 chapters"
    ∧ (overview url).contents.all
        (fun c => c.contentType == ContentTypeEnum.Course && !c.url.isEmpty) = true :=
  ⟨rfl, rfl, rfl, rfl⟩
